import Mathlib

/-!
Verification of the message-orchestration core of a multi-platform chat
assistant.  The Python sources are shallowly embedded: strings are modelled
as `List Char` (one entry per code point, matching Python `len`/indexing),
database tables as Lean lists, and the effectful pipeline of
`CoreSystem.process_message` as a pure function over oracle parameters that
stand for the results of the external calls (response generator, platform
transport).
-/

namespace RedliberAI

/-- Model of Python `str.lower` restricted to the alphabets that occur in the
source (ASCII letters and the Russian Cyrillic block, including Ё).  The
keyword lexicons in `core_system.py` are lowercase Russian, and inbound text
is lowercased before matching. -/
def pyToLower (c : Char) : Char :=
  if 'A' ≤ c ∧ c ≤ 'Z' then Char.ofNat (c.toNat + 32)
  else if 'А' ≤ c ∧ c ≤ 'Я' then Char.ofNat (c.toNat + 32)
  else if c = 'Ё' then 'ё'
  else c

/-- Lowercasing of a whole text, modelling `message.lower()`. -/
def lowerText (s : List Char) : List Char := s.map pyToLower

/-- Boolean test that `pat` is an initial segment of `s`. -/
def isPrefixB : List Char → List Char → Bool
  | [], _ => true
  | _ :: _, [] => false
  | a :: as, b :: bs => a == b && isPrefixB as bs

/-- Boolean test that `pat` occurs contiguously inside `s`, modelling the
Python expression `pat in s` on strings. -/
def isInfixB (pat : List Char) : List Char → Bool
  | [] => isPrefixB pat []
  | b :: bs => isPrefixB pat (b :: bs) || isInfixB pat bs

/-- Client lifecycle states.  The source stores them as the string constants
`'new'`, `'contacted'`, `'engaged'`, `'interested'`, `'rejected'`; these are
the only values ever written by `core_system.py`. -/
inductive ClientStatus
  | new
  | contacted
  | engaged
  | interested
  | rejected
  deriving DecidableEq, Repr

/-- Rejection lexicon of `CoreSystem._is_negative_response`
(`core_system.py` lines 410-413). -/
def negativeKeywords : List (List Char) :=
  ["нет".data, "неинтересно".data, "не интересует".data, "не пиши".data,
   "отстань".data, "не надо".data, "удали".data, "блок".data,
   "спам".data, "не беспокой".data]

/-- Embedding of `CoreSystem._is_negative_response` (`core_system.py`
lines 408-416): lowercase the message and test each keyword for substring
occurrence. -/
def isNegativeResponse (message : List Char) : Bool :=
  negativeKeywords.any (fun kw => isInfixB kw (lowerText message))

/-- Scheduling/consultation-intent test used by
`CoreSystem._update_client_status` (`core_system.py` line 445):
`"встреча" in user_message.lower() or "записаться" in user_message.lower()`. -/
def hasSchedulingKeyword (userMessage : List Char) : Bool :=
  isInfixB "встреча".data (lowerText userMessage) ||
  isInfixB "записаться".data (lowerText userMessage)

/-- Embedding of the status-update logic of `CoreSystem._update_client_status`
(`core_system.py` lines 444-452).  The `bot_response` argument of the Python
method is unused by this logic and is omitted.  The commit is guarded by a
state-equality check in the source, which has no observable effect on the
resulting status. -/
def updateClientStatus (current : ClientStatus) (userMessage : List Char) :
    ClientStatus :=
  if hasSchedulingKeyword userMessage then .interested
  else if 50 < userMessage.length then .engaged
  else if current = .new then .contacted
  else current

/-- Lifecycle evaluation for one inbound message as sequenced by
`CoreSystem.process_message`: the rejection check of line 188 fires first
(routing to `_handle_negative_response`, which writes `'rejected'`), and
otherwise `_update_client_status` applies on the reply path. -/
def lifecycleNext (current : ClientStatus) (text : List Char) : ClientStatus :=
  if isNegativeResponse text then .rejected
  else updateClientStatus current text

/-- Model of Python `s.replace(pat, rep)` for the nonempty patterns used by
`CoreSystem._adapt_response_for_platform`: every non-overlapping occurrence of
`pat`, scanned left to right, is replaced by `rep`.  An empty pattern is
treated as matching nowhere; the source only ever calls `replace` with the
nonempty literals `<b>`, `</b>`, `<i>`, `</i>`. -/
def pyReplace (pat rep : List Char) : List Char → List Char
  | [] => []
  | c :: rest =>
    if h : pat.isEmpty then c :: pyReplace pat rep rest
    else if isPrefixB pat (c :: rest) then
      rep ++ pyReplace pat rep ((c :: rest).drop pat.length)
    else
      c :: pyReplace pat rep rest
termination_by s => s.length
decreasing_by
  all_goals simp only [List.length_drop, List.length_cons]
  all_goals try omega
  all_goals
    have hp : pat ≠ [] := by
      intro he
      simp [he] at h
  all_goals
    have h1 : 1 ≤ pat.length := by
      cases pat with
      | nil => exact absurd rfl hp
      | cons a as => simp
  all_goals omega

/-- Chained tag-stripping performed by `_adapt_response_for_platform` for the
instagram and whatsapp branches (`core_system.py` lines 381, 384):
`response.replace('<b>','').replace('</b>','').replace('<i>','').replace('</i>','')`. -/
def stripTags (response : List Char) : List Char :=
  pyReplace "</i>".data []
    (pyReplace "<i>".data []
      (pyReplace "</b>".data []
        (pyReplace "<b>".data [] response)))

/-- Embedding of `CoreSystem._adapt_response_for_platform` (`core_system.py`
lines 374-386). -/
def adaptResponseForPlatform (response : List Char) (platform : List Char) :
    List Char :=
  if platform = "telegram".data then response
  else if platform = "instagram".data then stripTags response
  else if platform = "whatsapp".data then stripTags response
  else response

/-- Embedding of `CoreSystem._generate_response` (`core_system.py`
lines 330-351).  The oracle `svc` stands for the outcome of the call
`self.chatgpt_service.generate_response(...)`: `.error ()` when that call
raises (in the source as shipped it always does, because `ChatGPTService`
defines no method named `generate_response`, so an `AttributeError` is raised
and caught by the enclosing handler), `.ok none` when it returns Python
`None`, and `.ok (some r)` when it returns the text `r`.  On an exception the
method logs and returns `None`.  On `.ok none` the instagram/whatsapp adapt
branch raises (`None.replace`) and is caught, and the telegram/default branch
passes `None` through; either way the result is `None`. -/
def generateResponse (svc : Except Unit (Option (List Char)))
    (platform : List Char) : Option (List Char) :=
  match svc with
  | .error _ => none
  | .ok none => none
  | .ok (some r) => some (adaptResponseForPlatform r platform)

/-- Farewell text of `CoreSystem._handle_negative_response` (`core_system.py`
line 421). -/
def farewellMessage : List Char :=
  "Понял, больше не буду беспокоить. Хорошего дня!".data

/-- Observable effects of one `CoreSystem.process_message` call for a single
client (`core_system.py` lines 163-224). -/
structure ProcessResult where
  /-- Client status after the call. -/
  status : ClientStatus
  /-- Texts recorded by `_save_message` with `is_outgoing=False`. -/
  savedIncoming : List (List Char)
  /-- Texts recorded by `_save_message` with `is_outgoing=True`. -/
  savedOutgoing : List (List Char)
  /-- Texts handed to `_send_response` (outbound send attempts). -/
  sendAttempts : List (List Char)
  /-- Number of calls made to the response-generator service. -/
  generatorCalls : Nat
  /-- Boolean returned by `process_message`. -/
  returned : Bool
  deriving DecidableEq, Repr

/-- Embedding of `CoreSystem.process_message` (`core_system.py`
lines 163-224) for a client currently in state `current`.  `response` is the
result of `_generate_response` (see `generateResponse`); `sendOk` is the
success flag of `_send_response` for the generated reply.  The source first
saves the inbound message, then: on a rejection-lexicon match it sends the
single farewell text, marks the client `rejected` (regardless of the farewell
send outcome) and returns `True` without consulting the generator; otherwise
it calls the generator once, and only when the reply is truthy (non-`None`,
nonempty) and the send succeeds does it save the outgoing text and run
`_update_client_status`. -/
def processMessage (current : ClientStatus) (text : List Char)
    (response : Option (List Char)) (sendOk : Bool) : ProcessResult :=
  if isNegativeResponse text then
    { status := .rejected
      savedIncoming := [text]
      savedOutgoing := []
      sendAttempts := [farewellMessage]
      generatorCalls := 0
      returned := true }
  else
    match response with
    | none =>
        { status := current, savedIncoming := [text], savedOutgoing := []
          sendAttempts := [], generatorCalls := 1, returned := false }
    | some r =>
        if r = [] then
          { status := current, savedIncoming := [text], savedOutgoing := []
            sendAttempts := [], generatorCalls := 1, returned := false }
        else if sendOk then
          { status := updateClientStatus current text
            savedIncoming := [text]
            savedOutgoing := [r]
            sendAttempts := [r]
            generatorCalls := 1
            returned := true }
        else
          { status := current, savedIncoming := [text], savedOutgoing := []
            sendAttempts := [r], generatorCalls := 1, returned := false }

/-! Client store: `CoreSystem._get_or_create_client`. -/

/-- One row of the `clients` table, with the fields `core_system.py`
reads and writes. -/
structure ClientRec where
  id : Nat
  platform : List Char
  platformId : List Char
  username : List Char
  firstName : List Char
  lastName : List Char
  status : ClientStatus
  createdAt : Nat
  lastActivity : Option Nat
  deriving DecidableEq, Repr

/-- Optional profile fields of the `user_info` dict handed to
`_get_or_create_client`; `none` models an absent dictionary key
(`user_info.get(key, default)` then yields the default). -/
structure UserInfo where
  username : Option (List Char)
  firstName : Option (List Char)
  lastName : Option (List Char)
  deriving DecidableEq, Repr

/-- Row predicate of the query
`session.query(Client).filter_by(platform_id=user_id, platform=platform)`. -/
def clientKeyMatch (platform userId : List Char) (r : ClientRec) : Bool :=
  r.platformId == userId && r.platform == platform

/-- In-place update of the first row satisfying `p`, modelling a mutation of
the ORM object returned by `.first()` followed by a commit. -/
def updateFirst (p : α → Bool) (f : α → α) : List α → List α
  | [] => []
  | x :: xs => if p x then f x :: xs else x :: updateFirst p f xs

/-- Field refresh applied to an existing client (`core_system.py`
lines 257-263): `last_activity` is set to the current time and, when a
`user_info` dict is present, each display-name field is replaced by the
dict value, keeping the old value when the key is absent. -/
def refreshClient (info : Option UserInfo) (now : Nat) (c : ClientRec) :
    ClientRec :=
  match info with
  | none => { c with lastActivity := some now }
  | some i =>
      { c with
          lastActivity := some now
          username := i.username.getD c.username
          firstName := i.firstName.getD c.firstName
          lastName := i.lastName.getD c.lastName }

/-- Row inserted for an unseen (platform, platform id) pair (`core_system.py`
lines 240-248): display names default to the empty string, status is `'new'`,
`last_activity` is not set at creation. -/
def newClientRec (platform userId : List Char) (info : Option UserInfo)
    (now : Nat) (freshId : Nat) : ClientRec :=
  { id := freshId
    platform := platform
    platformId := userId
    username := (info.bind UserInfo.username).getD []
    firstName := (info.bind UserInfo.firstName).getD []
    lastName := (info.bind UserInfo.lastName).getD []
    status := .new
    createdAt := now
    lastActivity := none }

/-- Embedding of `CoreSystem._get_or_create_client` (`core_system.py`
lines 226-270): look the client up by (platform id, platform); create it when
absent (the database assigns `freshId`), otherwise refresh activity and
display names.  Returns the resolved client id and the table after the
call. -/
def getOrCreateClient (db : List ClientRec) (platform userId : List Char)
    (info : Option UserInfo) (now : Nat) (freshId : Nat) :
    Nat × List ClientRec :=
  match db.find? (clientKeyMatch platform userId) with
  | none => (freshId, db ++ [newClientRec platform userId info now freshId])
  | some c =>
      (c.id, updateFirst (clientKeyMatch platform userId)
               (refreshClient info now) db)

/-! Conversation store: `CoreSystem._get_conversation_context`. -/

/-- One row of the `messages` table as read by the context query. -/
structure StoredMessage where
  text : List Char
  isOutgoing : Bool
  createdAt : Nat
  deriving DecidableEq, Repr

/-- Generator-role tag of a context turn. -/
inductive Role
  | user
  | assistant
  deriving DecidableEq, Repr

/-- One role-tagged turn handed to the response generator. -/
structure Turn where
  role : Role
  content : List Char
  timestamp : Nat
  deriving DecidableEq, Repr

/-- Descending-timestamp ordering used to model
`order_by(Message.created_at.desc())`. -/
def newerFirst (a b : StoredMessage) : Prop :=
  b.createdAt ≤ a.createdAt

instance : DecidableRel newerFirst := fun a b => Nat.decLe _ _

instance : IsTotal StoredMessage newerFirst :=
  ⟨fun a b => Nat.le_total b.createdAt a.createdAt⟩

instance : IsTrans StoredMessage newerFirst :=
  ⟨fun _ _ _ hab hbc => Nat.le_trans hbc hab⟩

/-- Turn built from a stored message (`core_system.py` lines 318-323):
role `'assistant'` when the message is outgoing, `'user'` otherwise. -/
def toTurn (m : StoredMessage) : Turn :=
  { role := if m.isOutgoing then .assistant else .user
    content := m.text
    timestamp := m.createdAt }

/-- Embedding of `CoreSystem._get_conversation_context` (`core_system.py`
lines 308-328) over the client's stored messages `msgs`: order by
`created_at` descending, keep the first `limit` rows, then reverse and map to
role-tagged turns. -/
def getConversationContext (msgs : List StoredMessage) (limit : Nat := 10) :
    List Turn :=
  (((msgs.insertionSort newerFirst).take limit).reverse).map toTurn

/-! Instagram adapter: rate gate, session-counter reconstruction, and the
send/re-authenticate loop (`app/adapters/instagram.py`). -/

/-- Configured Instagram daily send ceiling.  The configuration supplies 45
(`config.py`: `MAX_MESSAGES_PER_DAY = 45`,
`instagram_max_messages_per_day = "45"`,
`OUTBOUND_DAILY_LIMIT_INSTAGRAM = 45`). -/
def INSTAGRAM_MAX_MESSAGES_PER_DAY : Nat := 45

/-- Configured minimum interval between Instagram sends, in minutes
(`config.py`: `MIN_MESSAGE_INTERVAL_MINUTES = 15`,
`instagram_min_interval_minutes = "15"`). -/
def INSTAGRAM_MIN_INTERVAL_MINUTES : Nat := 15

/-- Number of minutes in one calendar day, used to map a minute timestamp to
its day index. -/
def minutesPerDay : Nat := 1440

/-- In-memory rate state of `InstagramAdapter`: the `messages_sent_today`
counter and the `last_message_sent` timestamp (minutes since epoch, `none`
when no send is recorded). -/
structure IGState where
  messagesSentToday : Nat
  lastMessageSent : Option Nat
  deriving DecidableEq, Repr

/-- Embedding of `InstagramAdapter.is_within_limits` (`instagram.py`
lines 138-159) at current time `now` (minutes since epoch).  The
working-hours check is commented out in the source.  Denies when the daily
counter has reached the ceiling, or when less than the minimum interval has
passed since the recorded last send. -/
def isWithinLimits (st : IGState) (now : Nat) : Bool :=
  if INSTAGRAM_MAX_MESSAGES_PER_DAY ≤ st.messagesSentToday then false
  else
    match st.lastMessageSent with
    | none => true
    | some t => !(now - t < INSTAGRAM_MIN_INTERVAL_MINUTES)

/-- One row of the `account_activities` table. -/
structure Activity where
  platform : List Char
  accountName : List Char
  actionType : List Char
  timestamp : Nat
  deriving DecidableEq, Repr

/-- Row predicate shared by both queries of
`InstagramAdapter._load_session_counter`: instagram platform, this account,
action `message_sent`. -/
def sentRowMatch (username : List Char) (r : Activity) : Bool :=
  r.platform == "instagram".data && r.accountName == username &&
  r.actionType == "message_sent".data

/-- Day-window predicate `timestamp.between(today_start, today_end)` at
minute granularity: the row's timestamp falls on day `today`. -/
def onDay (today : Nat) (r : Activity) : Bool :=
  r.timestamp / minutesPerDay == today

/-- Descending-timestamp ordering modelling
`order_by(AccountActivity.timestamp.desc())`. -/
def activityNewerFirst (a b : Activity) : Prop :=
  b.timestamp ≤ a.timestamp

instance : DecidableRel activityNewerFirst := fun a b => Nat.decLe _ _

instance : IsTotal Activity activityNewerFirst :=
  ⟨fun a b => Nat.le_total b.timestamp a.timestamp⟩

instance : IsTrans Activity activityNewerFirst :=
  ⟨fun _ _ _ hab hbc => Nat.le_trans hbc hab⟩

/-- Embedding of `InstagramAdapter._load_session_counter` (`instagram.py`
lines 40-72).  `dbOk = false` models the queries raising: the handler logs
and the fields keep their constructor values (`messages_sent_today = 0`,
`last_message_sent = None`), i.e. the gate fails open.  With a working
database, the counter is the number of this account's `message_sent` rows
timestamped within the current day, while the last-send timestamp comes from
the newest `message_sent` row of the account with NO date restriction
(the second query has no `between` filter). -/
def loadSessionCounter (dbOk : Bool) (rows : List Activity)
    (username : List Char) (today : Nat) : Nat × Option Nat :=
  if dbOk then
    let relevant := rows.filter (sentRowMatch username)
    let count := (relevant.filter (onDay today)).length
    let last := ((relevant.insertionSort activityNewerFirst).head?).map
      Activity.timestamp
    (count, last)
  else
    (0, none)

/-- Counter reconstruction as the specification sentence describes it, for
comparison with `loadSessionCounter`: both the count and the last-send
timestamp are drawn from the account's `message_sent` rows timestamped
within the current calendar day. -/
def loadSessionCounterSpec (rows : List Activity) (username : List Char)
    (today : Nat) : Nat × Option Nat :=
  let todayRows := (rows.filter (sentRowMatch username)).filter (onDay today)
  (todayRows.length,
   ((todayRows.insertionSort activityNewerFirst).head?).map Activity.timestamp)

/-- Outcome of one observed `direct_send` attempt inside
`InstagramAdapter.send_message`, paired with the result the subsequent
`authenticate()` call would return if the attempt raises an auth-expired
exception. -/
inductive IGAttempt
  /-- The send succeeds. -/
  | ok
  /-- The send raises an exception that is not `LoginRequired` or
  `ChallengeRequired`. -/
  | otherError
  /-- The send raises `LoginRequired` or `ChallengeRequired`; the paired
  Boolean is the result of the re-authentication that follows. -/
  | authExpired (reauthOk : Bool)
  deriving DecidableEq, Repr

/-- Terminal outcome of `InstagramAdapter.send_message`: either the success
dict `{"success": True, ...}` or a failure dict
`{"success": False, "error": str(e)}`.  The method only ever returns these
dicts; it raises no exception of its own (in particular it never raises the
`AuthenticationError` class defined in `base.py`, which no code in the
repository raises). -/
inductive IGOutcome
  | sent
  | failed
  deriving DecidableEq, Repr

/-- Embedding of the send/re-authenticate loop of
`InstagramAdapter.send_message` (`instagram.py` lines 171-210), driven by the
finite observation trace `trace` of attempt outcomes.  Each recursive
self-call re-runs the authenticated/limits guards; since a failed send
changes neither the counter nor the last-send time and the adapter is
re-authenticated before the self-call, a loop entered past the guards passes
them again, so the guards are not re-modelled here.  Returns the terminal
outcome reached within the trace (`none` when the trace is exhausted with the
recursion still running) together with the number of `direct_send`
invocations consumed. -/
def igSendLoop : List IGAttempt → Option IGOutcome × Nat
  | [] => (none, 0)
  | a :: rest =>
    match a with
    | .ok => (some .sent, 1)
    | .otherError => (some .failed, 1)
    | .authExpired reauthOk =>
        if reauthOk then
          let r := igSendLoop rest
          (r.1, r.2 + 1)
        else (some .failed, 1)

/-! Telegram adapter: message validation and the send/retry loop
(`app/adapters/base.py`, `app/adapters/telegram.py`). -/

/-- Whitespace test modelling Python `str.strip()`s default character class,
restricted to the ASCII whitespace characters. -/
def isPyWhitespace (c : Char) : Bool :=
  c == ' ' || c == '\t' || c == '\n' || c == '\x0b' || c == '\x0c' ||
  c == '\r'

/-- Model of Python `s.strip()`: drop leading and trailing whitespace. -/
def pyStrip (s : List Char) : List Char :=
  ((s.dropWhile isPyWhitespace).reverse.dropWhile isPyWhitespace).reverse

/-- Validation errors produced by `MessengerAdapter.validate_message`. -/
inductive ValidationError
  /-- The string `"Message is empty"`. -/
  | emptyMessage
  /-- The string `"Message too long"`. -/
  | tooLong
  deriving DecidableEq, Repr

/-- Embedding of `MessengerAdapter.validate_message` (`base.py`
lines 326-340): fail on an empty or whitespace-only message
(`not message or not message.strip()`), fail on more than 4096 characters,
and pass otherwise. -/
def validateMessage (message : List Char) : Bool × Option ValidationError :=
  if message = [] ∨ pyStrip message = [] then (false, some .emptyMessage)
  else if 4096 < message.length then (false, some .tooLong)
  else (true, none)

/-- Outcome of one observed `bot.send_message` attempt inside
`TelegramAdapter.send_message`. -/
inductive TGAttempt
  /-- The platform call succeeds. -/
  | ok
  /-- The platform call raises `RetryAfter`; the adapter sleeps and retries
  via a recursive self-call. -/
  | retryAfter
  /-- The platform call raises a `TelegramError` other than `RetryAfter`. -/
  | telegramError
  /-- The platform call raises some other exception. -/
  | otherError
  deriving DecidableEq, Repr

/-- Result dict shape returned by `TelegramAdapter.send_message`. -/
structure TGResult where
  success : Bool
  error : Option ValidationError
  deriving DecidableEq, Repr

/-- Embedding of `TelegramAdapter.send_message` (`telegram.py`
lines 104-168), driven by a finite trace of platform-call outcomes.  Each
call first validates the message; on validation failure it returns the
failure dict without touching the platform.  Otherwise it performs the
platform call: success and non-`RetryAfter` errors terminate, `RetryAfter`
sleeps and recurses on the same message.  Transport failures are reported
with `error := none` here since only the validation errors are distinguished
by the claims.  Returns the terminal result reached within the trace (`none`
when the trace is exhausted mid-retry) and the number of `bot.send_message`
invocations consumed. -/
def tgSendLoop (message : List Char) : List TGAttempt → Option TGResult × Nat
  | [] =>
    if (validateMessage message).1 = false then
      (some { success := false, error := (validateMessage message).2 }, 0)
    else (none, 0)
  | a :: rest =>
    if (validateMessage message).1 = false then
      (some { success := false, error := (validateMessage message).2 }, 0)
    else
      match a with
      | .ok => (some { success := true, error := none }, 1)
      | .telegramError => (some { success := false, error := none }, 1)
      | .otherError => (some { success := false, error := none }, 1)
      | .retryAfter =>
          let r := tgSendLoop message rest
          (r.1, r.2 + 1)

/-! Helper lemmas. -/

/-- Core identity of a client row: everything except the activity timestamp
and the display-name fields. -/
def coreFields (r : ClientRec) :
    Nat × List Char × List Char × ClientStatus × Nat :=
  (r.id, r.platform, r.platformId, r.status, r.createdAt)

lemma coreFields_refreshClient (i : Option UserInfo) (now : Nat)
    (a : ClientRec) : coreFields (refreshClient i now a) = coreFields a := by
  cases i <;> rfl

lemma clientKeyMatch_refreshClient (p u : List Char) (i : Option UserInfo)
    (now : Nat) (a : ClientRec) :
    clientKeyMatch p u (refreshClient i now a) = clientKeyMatch p u a := by
  cases i <;> rfl

lemma id_refreshClient (i : Option UserInfo) (now : Nat) (a : ClientRec) :
    (refreshClient i now a).id = a.id := by
  cases i <;> rfl

lemma clientKeyMatch_newClientRec (p u : List Char) (i : Option UserInfo)
    (now fid : Nat) : clientKeyMatch p u (newClientRec p u i now fid) = true := by
  simp [clientKeyMatch, newClientRec]

lemma updateFirst_length (p : α → Bool) (f : α → α) (l : List α) :
    (updateFirst p f l).length = l.length := by
  induction l with
  | nil => rfl
  | cons x xs ih =>
    simp only [updateFirst]
    split <;> simp [ih]

lemma map_updateFirst (p : α → Bool) (f : α → α) (g : α → β) (l : List α)
    (hgf : ∀ a, g (f a) = g a) :
    (updateFirst p f l).map g = l.map g := by
  induction l with
  | nil => rfl
  | cons x xs ih =>
    simp only [updateFirst]
    split <;> simp [ih, hgf]

lemma find?_updateFirst (p : α → Bool) (f : α → α) (l : List α) (c : α)
    (hpf : ∀ a, p a = true → p (f a) = true) (h : l.find? p = some c) :
    (updateFirst p f l).find? p = some (f c) := by
  induction l with
  | nil => simp at h
  | cons x xs ih =>
    by_cases hx : p x = true
    · rw [List.find?_cons_of_pos _ hx] at h
      injection h with h
      subst h
      simp [updateFirst, hx, List.find?_cons_of_pos _ (hpf _ hx)]
    · rw [List.find?_cons_of_neg _ (by simpa using hx)] at h
      simp only [updateFirst, if_neg hx]
      rw [List.find?_cons_of_neg _ (by simpa using hx)]
      exact ih h

/-- Head of the timestamp-descending sort of activity rows carries the
maximal timestamp of the rows (the value the query
`order_by(timestamp.desc()).first()` yields). -/
lemma head?_insertionSort_timestamp (l : List Activity) :
    ((l.insertionSort activityNewerFirst).head?).map Activity.timestamp =
      (l.map Activity.timestamp).max? := by
  have hperm := List.perm_insertionSort activityNewerFirst l
  have hsort := List.sorted_insertionSort activityNewerFirst l
  cases hs : l.insertionSort activityNewerFirst with
  | nil =>
    rw [hs] at hperm
    rw [hperm.symm.eq_nil]
    rfl
  | cons a t =>
    rw [hs] at hperm hsort
    have hmax : (l.map Activity.timestamp).max? = some a.timestamp := by
      rw [List.max?_eq_some_iff Nat.le_refl (fun x y => by omega)
        (fun x y z => by omega)]
      constructor
      · exact List.mem_map_of_mem _ (hperm.mem_iff.mp (List.mem_cons_self a t))
      · intro b hb
        obtain ⟨m, hm, rfl⟩ := List.mem_map.mp hb
        have : m ∈ a :: t := hperm.mem_iff.mpr hm
        rcases List.mem_cons.mp this with h | h
        · subst h
          exact Nat.le_refl _
        · exact (List.pairwise_cons.mp hsort).1 m h
    rw [hmax]
    rfl

/-- Platform adaptation of the empty reply is empty on every platform. -/
lemma adaptResponseForPlatform_nil (p : List Char) :
    adaptResponseForPlatform [] p = [] := by
  simp only [adaptResponseForPlatform, stripTags, pyReplace]
  split <;> [rfl; split <;> [rfl; split <;> rfl]]

/-! Claim theorems. -/

/-- C7: an inbound text matching the rejection lexicon from a client in state
`new` makes the router mark the client `rejected`, hand exactly one message
(the farewell text) to the transport, and make zero calls to the response
generator, whatever the generator or transport oracles would have
returned. -/
theorem negative_message_farewell (text : List Char)
    (response : Option (List Char)) (sendOk : Bool)
    (hneg : isNegativeResponse text = true) :
    processMessage .new text response sendOk =
      { status := .rejected
        savedIncoming := [text]
        savedOutgoing := []
        sendAttempts := [farewellMessage]
        generatorCalls := 0
        returned := true } := by
  simp [processMessage, hneg]

/-- Witness for C7 at the inbound text `"не пиши мне больше"`. -/
theorem negative_message_farewell_witness :
    processMessage .new "не пиши мне больше".data (some "ответ".data) true =
      { status := .rejected
        savedIncoming := ["не пиши мне больше".data]
        savedOutgoing := []
        sendAttempts := [farewellMessage]
        generatorCalls := 0
        returned := true } :=
  negative_message_farewell "не пиши мне больше".data (some "ответ".data)
    true (by decide)

/-- C3: when reply generation fails (the service call raises, as it always
does in the shipped source where `ChatGPTService` lacks a `generate_response`
method) or yields nothing (Python `None` or the empty string), the handling
of a non-rejection inbound event is aborted: no text is handed to the
transport, no outgoing message is recorded, the client status is untouched
and `process_message` returns `False`.  No fallback reply is fabricated on
this path. -/
theorem generation_failure_aborts (current : ClientStatus) (text : List Char)
    (svc : Except Unit (Option (List Char))) (platform : List Char)
    (sendOk : Bool) (hneg : isNegativeResponse text = false)
    (hfail : svc = .error () ∨ svc = .ok none ∨ svc = .ok (some [])) :
    processMessage current text (generateResponse svc platform) sendOk =
      { status := current
        savedIncoming := [text]
        savedOutgoing := []
        sendAttempts := []
        generatorCalls := 1
        returned := false } := by
  rcases hfail with h | h | h <;> subst h <;>
    simp [processMessage, generateResponse, hneg, adaptResponseForPlatform_nil]

/-- Witness for C3: the service call raising on the text `"привет"` for the
telegram platform. -/
theorem generation_failure_aborts_witness :
    processMessage .contacted "привет".data
        (generateResponse (.error ()) "telegram".data) true =
      { status := .contacted
        savedIncoming := ["привет".data]
        savedOutgoing := []
        sendAttempts := []
        generatorCalls := 1
        returned := false } :=
  generation_failure_aborts .contacted "привет".data (.error ())
    "telegram".data true (by decide) (Or.inl rfl)

/-- C6: the per-inbound-message lifecycle evaluation applies its rules in
priority order: a rejection-lexicon match (case-insensitive substring) yields
`rejected`; else a scheduling keyword yields `interested`; else text length
above 50 yields `engaged`; else a `new` client becomes `contacted`; otherwise
the state is unchanged. -/
theorem lifecycle_priority_order (current : ClientStatus) (text : List Char) :
    (isNegativeResponse text = true → lifecycleNext current text = .rejected)
    ∧ (isNegativeResponse text = false → hasSchedulingKeyword text = true →
        lifecycleNext current text = .interested)
    ∧ (isNegativeResponse text = false → hasSchedulingKeyword text = false →
        50 < text.length → lifecycleNext current text = .engaged)
    ∧ (isNegativeResponse text = false → hasSchedulingKeyword text = false →
        text.length ≤ 50 → current = .new →
        lifecycleNext current text = .contacted)
    ∧ (isNegativeResponse text = false → hasSchedulingKeyword text = false →
        text.length ≤ 50 → current ≠ .new →
        lifecycleNext current text = current) := by
  refine ⟨fun h => ?_, fun h hs => ?_, fun h hs hl => ?_,
    fun h hs hl hc => ?_, fun h hs hl hc => ?_⟩
  · simp [lifecycleNext, h]
  · simp [lifecycleNext, updateClientStatus, h, hs]
  · simp [lifecycleNext, updateClientStatus, h, hs, hl]
  · have hnl : ¬ (50 < text.length) := by omega
    simp [lifecycleNext, updateClientStatus, h, hs, hnl, hc]
  · have hnl : ¬ (50 < text.length) := by omega
    simp [lifecycleNext, updateClientStatus, h, hs, hnl, hc]

/-- Witness for C6: the rejection branch fires for `"не пиши мне больше"`. -/
theorem lifecycle_priority_order_witness :
    lifecycleNext .new "не пиши мне больше".data = .rejected :=
  (lifecycle_priority_order .new "не пиши мне больше".data).1 (by decide)

/-- C1 counterexample: the claim that a `rejected` client stays `rejected` on
every subsequent inbound message is false.  For a rejected client whose next
message is `"хочу записаться"` (a scheduling keyword, not in the rejection
lexicon), with a reply generated and sent, `process_message` moves the
client to `interested`: `_update_client_status` has no guard for the
`rejected` state. -/
theorem rejected_client_can_regress :
    (processMessage .rejected "хочу записаться".data
        (some "Отлично!".data) true).status = .interested ∧
    ClientStatus.interested ≠ ClientStatus.rejected := by
  constructor
  · decide
  · decide

/-- C1 amended: a `rejected` client stays `rejected` exactly on the messages
the code never promotes: any inbound text without a scheduling keyword and of
length at most 50 leaves the state `rejected` (whatever the generator and
transport do); but a non-rejection text with a scheduling keyword whose reply
is generated and successfully sent regresses the client to `interested`. -/
theorem rejected_persistence_characterization (text : List Char)
    (response : Option (List Char)) (sendOk : Bool) :
    (hasSchedulingKeyword text = false → text.length ≤ 50 →
      (processMessage .rejected text response sendOk).status = .rejected)
    ∧ (isNegativeResponse text = false → hasSchedulingKeyword text = true →
        ∀ r, response = some r → r ≠ [] → sendOk = true →
        (processMessage .rejected text response sendOk).status =
          .interested) := by
  constructor
  · intro hs hl
    by_cases hneg : isNegativeResponse text
    · simp [processMessage, hneg]
    · cases response with
      | none => simp [processMessage, hneg]
      | some r =>
        by_cases hr : r = [] <;> cases sendOk <;>
          simp [processMessage, hneg, hr, updateClientStatus, hs] <;> omega
  · intro hneg hs r hr hne hok
    subst hr hok
    simp [processMessage, hneg, hne, updateClientStatus, hs]

/-- Witness for C1 amended: a short, keyword-free text from a rejected client
leaves it rejected. -/
theorem rejected_persistence_characterization_witness :
    (processMessage .rejected "ок".data (some "ответ".data) true).status =
      .rejected :=
  (rejected_persistence_characterization "ок".data (some "ответ".data)
    true).1 (by decide) (by decide)

/-- C2 counterexample: the claim that the Instagram send path re-authenticates
exactly once and re-issues the send at most once (bounding the underlying
send attempts per call) is false.  On a trace where `direct_send` keeps
raising an auth-expired exception and every re-authentication succeeds, the
recursive self-call in `send_message` keeps going: after three observed
attempts the call has issued three sends and still has no outcome, exceeding
the claimed bound of two. -/
theorem ig_send_retry_unbounded_cex :
    igSendLoop (List.replicate 3 (.authExpired true)) = (none, 3) ∧
    2 < 3 := by
  constructor
  · rfl
  · decide

/-- C2 amended: the re-authentication retry in
`InstagramAdapter.send_message` is a recursive self-call with no depth cap.
As long as every send raises auth-expired and every re-authentication
succeeds, the call keeps issuing sends (after `n` such rounds it has made `n`
attempts with no outcome yet); the loop ends only when a send succeeds, a
send fails with a non-auth error, or a re-authentication fails — in the last
case the call returns the failure dict `{"success": False, "error": str(e)}`
rather than raising `AuthenticationError` (which nothing in the repository
raises). -/
theorem ig_send_retry_characterization (n : Nat) :
    igSendLoop (List.replicate n (.authExpired true)) = (none, n) ∧
    igSendLoop (List.replicate n (.authExpired true) ++
        [.authExpired false]) = (some .failed, n + 1) := by
  induction n with
  | zero => exact ⟨rfl, rfl⟩
  | succ k ih =>
    refine ⟨?_, ?_⟩
    · rw [List.replicate_succ]
      simp [igSendLoop, ih.1]
    · rw [List.replicate_succ, List.cons_append]
      simp [igSendLoop, ih.2]

/-- C4 counterexample: the claim that sending is permitted again on the next
calendar day is false for a running process.  With the in-memory counter at
the ceiling (45) and the last send at minute 0 of day 0, the gate still
denies at minute 1440 — the first minute of the next calendar day — because
`messages_sent_today` is never reset while the process runs. -/
theorem rate_gate_no_daily_reset_cex :
    isWithinLimits ⟨45, some 0⟩ 1440 = false := by
  decide

/-- C4 amended: once the in-memory counter reaches the daily ceiling (45),
`is_within_limits` denies at every later instant for as long as the process
runs — the counter has no day rollover.  Sending on a later day resumes only
through a restart: `_load_session_counter` rebuilds the counter from the
current day's `message_sent` rows, which yields zero when all recorded rows
lie on other days, and the gate permits a state below the ceiling once the
minimum interval since the recorded last send has elapsed. -/
theorem rate_gate_ceiling_characterization :
    (∀ (st : IGState) (now : Nat),
      INSTAGRAM_MAX_MESSAGES_PER_DAY ≤ st.messagesSentToday →
      isWithinLimits st now = false)
    ∧ (∀ (rows : List Activity) (u : List Char) (d : Nat),
        (∀ r ∈ rows, onDay d r = false) →
        (loadSessionCounter true rows u d).1 = 0)
    ∧ (∀ (c : Nat) (last : Option Nat) (now : Nat),
        c < INSTAGRAM_MAX_MESSAGES_PER_DAY →
        (∀ t, last = some t → t + INSTAGRAM_MIN_INTERVAL_MINUTES ≤ now) →
        isWithinLimits ⟨c, last⟩ now = true) := by
  refine ⟨fun st now h => ?_, fun rows u d h => ?_, fun c last now hc hl => ?_⟩
  · simp [isWithinLimits, h]
  · simp only [loadSessionCounter, if_true, List.length_eq_zero]
    refine List.filter_eq_nil_iff.mpr fun r hr => ?_
    simp [h r (List.mem_of_mem_filter hr)]
  · have hnc : ¬ (INSTAGRAM_MAX_MESSAGES_PER_DAY ≤ c) := by omega
    cases last with
    | none => simp [isWithinLimits, hnc]
    | some t =>
      have := hl t rfl
      simp only [isWithinLimits, hnc, if_false, Bool.not_eq_true']
      rw [decide_eq_false_iff_not]
      have h15 : INSTAGRAM_MIN_INTERVAL_MINUTES = 15 := rfl
      omega

/-- Witness for C4 amended: a counter at the ceiling is denied at a concrete
later time; a reconstruction over rows from day 0 only yields counter 0 on
day 1; and the fresh state is permitted once 15 minutes have passed. -/
theorem rate_gate_ceiling_characterization_witness :
    isWithinLimits ⟨45, some 0⟩ 2000 = false ∧
    (loadSessionCounter true
        [⟨"instagram".data, "acct".data, "message_sent".data, 100⟩]
        "acct".data 1).1 = 0 ∧
    isWithinLimits ⟨0, some 100⟩ 1500 = true := by
  refine ⟨rate_gate_ceiling_characterization.1 ⟨45, some 0⟩ 2000 (by decide),
    rate_gate_ceiling_characterization.2.1
      [⟨"instagram".data, "acct".data, "message_sent".data, 100⟩]
      "acct".data 1 ?_,
    rate_gate_ceiling_characterization.2.2 0 (some 100) 1500 (by decide) ?_⟩
  · intro r hr
    simp only [List.mem_singleton] at hr
    subst hr
    decide
  · intro t ht
    cases ht
    decide

/-- C10: `TelegramAdapter.send_message` returns a `success=False` result
carrying a validation error, and performs zero platform sends, whenever the
message fails `validate_message`; and validation fails exactly when the
message is empty or whitespace-only (its `strip()` is empty) or longer than
4096 characters, so every message that is nonempty after stripping and of
length at most 4096 passes validation. -/
theorem telegram_validation_spec (message : List Char)
    (trace : List TGAttempt) :
    ((validateMessage message).1 = false →
      tgSendLoop message trace =
        (some { success := false, error := (validateMessage message).2 }, 0)
      ∧ (validateMessage message).2 ≠ none)
    ∧ ((validateMessage message).1 = false ↔
        (pyStrip message = [] ∨ 4096 < message.length)) := by
  constructor
  · intro hv
    refine ⟨?_, ?_⟩
    · cases trace with
      | nil => simp [tgSendLoop, hv]
      | cons a rest => simp [tgSendLoop, hv]
    · by_cases h1 : message = [] ∨ pyStrip message = []
      · simp [validateMessage, h1]
      · by_cases h2 : 4096 < message.length
        · simp [validateMessage, h1, h2]
        · simp [validateMessage, h1, h2] at hv
  · simp only [validateMessage]
    constructor
    · intro hv
      split at hv
      · rename_i hcond
        rcases hcond with hnil | hstrip
        · subst hnil
          exact Or.inl rfl
        · exact Or.inl hstrip
      · split at hv
        · rename_i _ hlen
          exact Or.inr hlen
        · simp at hv
    · intro hcond
      rcases hcond with hstrip | hlen
      · rw [if_pos (Or.inr hstrip)]
      · by_cases hfst : message = [] ∨ pyStrip message = []
        · rw [if_pos hfst]
        · rw [if_neg hfst, if_pos hlen]

/-- Witness for C10: the whitespace-only message `" "` yields a failure
result with the `"Message is empty"` error and zero platform sends, even when
the platform would have accepted a call. -/
theorem telegram_validation_spec_witness :
    tgSendLoop " ".data [.ok] =
      (some { success := false, error := some .emptyMessage }, 0) :=
  ((telegram_validation_spec " ".data [.ok]).1 (by decide)).1

/-- C5: the conversation-context query with the default limit of 10 returns
at most 10 turns; turn timestamps are non-decreasing (oldest first); every
turn is the role-tagged image of a stored message of the client, tagged
`assistant` exactly when the stored message is outgoing; and the selected
rows are the most recent ones — every row left out by the query has a
timestamp at most that of every selected row. -/
theorem conversation_context_spec (msgs : List StoredMessage) :
    (getConversationContext msgs).length ≤ 10
    ∧ ((getConversationContext msgs).map Turn.timestamp).Pairwise (· ≤ ·)
    ∧ (∀ t ∈ getConversationContext msgs, ∃ m ∈ msgs, t = toTurn m)
    ∧ (∀ m : StoredMessage,
        (toTurn m).role = if m.isOutgoing then Role.assistant else Role.user)
    ∧ (∀ x ∈ (msgs.insertionSort newerFirst).take 10,
        ∀ y ∈ (msgs.insertionSort newerFirst).drop 10,
        y.createdAt ≤ x.createdAt) := by
  have hsort : (msgs.insertionSort newerFirst).Pairwise newerFirst :=
    List.sorted_insertionSort newerFirst msgs
  refine ⟨?_, ?_, ?_, fun m => rfl, ?_⟩
  · simp only [getConversationContext, List.length_map, List.length_reverse,
      List.length_take]
    omega
  · simp only [getConversationContext, List.map_map]
    rw [List.pairwise_map, List.pairwise_reverse]
    have htake : ((msgs.insertionSort newerFirst).take 10).Pairwise
        newerFirst :=
      hsort.sublist (List.take_sublist 10 _)
    exact htake.imp (fun hab => hab)
  · intro t ht
    simp only [getConversationContext, List.mem_map, List.mem_reverse] at ht
    obtain ⟨m, hm, rfl⟩ := ht
    exact ⟨m, (List.mem_insertionSort newerFirst).mp
      (List.mem_of_mem_take hm), rfl⟩
  · intro x hx y hy
    have hsplit : (msgs.insertionSort newerFirst).take 10 ++
        (msgs.insertionSort newerFirst).drop 10 = msgs.insertionSort newerFirst :=
      List.take_append_drop 10 _
    exact (List.pairwise_append.mp (hsplit ▸ hsort)).2.2 x hx y hy

/-- Witness for C5 at a concrete three-message history: the context keeps all
three turns oldest-first, and the recency conjunct instantiates trivially on
the empty dropped remainder. -/
theorem conversation_context_spec_witness :
    (getConversationContext
      [⟨"a".data, false, 5⟩, ⟨"b".data, true, 3⟩, ⟨"c".data, false, 9⟩]).length ≤ 10
    ∧ ∃ m ∈ [(⟨"a".data, false, 5⟩ : StoredMessage), ⟨"b".data, true, 3⟩,
        ⟨"c".data, false, 9⟩], (⟨.assistant, "b".data, 3⟩ : Turn) = toTurn m := by
  refine ⟨(conversation_context_spec _).1, ?_⟩
  exact (conversation_context_spec
    [⟨"a".data, false, 5⟩, ⟨"b".data, true, 3⟩, ⟨"c".data, false, 9⟩]).2.2.1
    ⟨.assistant, "b".data, 3⟩ (by decide)

/-- C8: resolving a client twice in sequence by the same (platform, platform
id) pair never creates a second record: the second resolution returns the
same client id, leaves the table length unchanged, and changes no field
outside last-activity and the display names (id, platform, platform id,
status and creation time of every row are untouched). -/
theorem client_resolution_idempotent (db : List ClientRec) (p u : List Char)
    (i₁ i₂ : Option UserInfo) (now₁ now₂ f₁ f₂ : Nat) :
    (getOrCreateClient (getOrCreateClient db p u i₁ now₁ f₁).2
        p u i₂ now₂ f₂).1 = (getOrCreateClient db p u i₁ now₁ f₁).1
    ∧ (getOrCreateClient (getOrCreateClient db p u i₁ now₁ f₁).2
        p u i₂ now₂ f₂).2.length = (getOrCreateClient db p u i₁ now₁ f₁).2.length
    ∧ (getOrCreateClient (getOrCreateClient db p u i₁ now₁ f₁).2
        p u i₂ now₂ f₂).2.map coreFields =
      (getOrCreateClient db p u i₁ now₁ f₁).2.map coreFields := by
  cases h : db.find? (clientKeyMatch p u) with
  | none =>
    have hfind2 : (db ++ [newClientRec p u i₁ now₁ f₁]).find?
        (clientKeyMatch p u) = some (newClientRec p u i₁ now₁ f₁) := by
      rw [List.find?_append, h]
      simp [List.find?_cons, clientKeyMatch_newClientRec]
    simp only [getOrCreateClient, h, hfind2]
    refine ⟨rfl, ?_, ?_⟩
    · rw [updateFirst_length]
    · rw [map_updateFirst]
      exact coreFields_refreshClient i₂ now₂
  | some c =>
    have hfind2 : (updateFirst (clientKeyMatch p u) (refreshClient i₁ now₁)
        db).find? (clientKeyMatch p u) = some (refreshClient i₁ now₁ c) :=
      find?_updateFirst _ _ _ _
        (fun a ha => by rw [clientKeyMatch_refreshClient]; exact ha) h
    simp only [getOrCreateClient, h, hfind2]
    refine ⟨id_refreshClient i₁ now₁ c, ?_, ?_⟩
    · rw [updateFirst_length]
    · rw [map_updateFirst _ _ _ _ (coreFields_refreshClient i₂ now₂),
        map_updateFirst _ _ _ _ (coreFields_refreshClient i₁ now₁)]

/-- C9 counterexample: the claim that the reconstructed last-send time comes
from the most recent `message_sent` row of the current calendar day is false.
With a single `message_sent` row at minute 100 of day 0 and a reconstruction
on day 1, the source takes the last-send time from that row (its query has no
date filter) and returns `(0, some 100)`, while the claim's day-filtered
reading yields `(0, none)`. -/
theorem session_counter_last_send_cex :
    loadSessionCounter true
        [⟨"instagram".data, "acct".data, "message_sent".data, 100⟩]
        "acct".data 1 = (0, some 100)
    ∧ loadSessionCounterSpec
        [⟨"instagram".data, "acct".data, "message_sent".data, 100⟩]
        "acct".data 1 = (0, none) := by
  constructor
  · rfl
  · rfl

/-- C9 amended: on a reconstruction failure the counters keep their
constructor values — zero sent today and no last-send time (fail-open, not
zero remaining budget); with a working database the counter is the number of
the account's `message_sent` rows timestamped within the current calendar
day, and the last-send time is the maximal timestamp over ALL of the
account's `message_sent` rows, regardless of day. -/
theorem session_counter_characterization :
    (∀ (rows : List Activity) (u : List Char) (d : Nat),
      loadSessionCounter false rows u d = (0, none))
    ∧ (∀ (rows : List Activity) (u : List Char) (d : Nat),
        (loadSessionCounter true rows u d).1 =
          ((rows.filter (sentRowMatch u)).filter (onDay d)).length)
    ∧ (∀ (rows : List Activity) (u : List Char) (d : Nat),
        (loadSessionCounter true rows u d).2 =
          ((rows.filter (sentRowMatch u)).map Activity.timestamp).max?) := by
  refine ⟨fun rows u d => rfl, fun rows u d => rfl, fun rows u d => ?_⟩
  simp only [loadSessionCounter, if_true]
  exact head?_insertionSort_timestamp _

end RedliberAI
